import Mathlib

/-!
Verification of the flights-tracker animation core.

Shallow embedding of the repository's JavaScript sources:
* `Utils.js` (lat/lng ↔ 3D conversion, random sphere point),
* `Flight.js` (cruise-altitude computation, per-flight timeline state machine),
* `InstancedPlanes.js` (CPU-transform instance renderer),
* `GPUInstancedPlanes.js` (GPU-curve instance renderer and its vertex program),
* `MergedFlightPaths.js` (merged trail buffers),
* `MatrixPool.js` (reusable matrix pool).

JavaScript numbers and GLSL floats are modelled as real numbers (or, where a
component is purely arithmetical, as elements of a generic linear ordered
field so that the same definition can be evaluated over `ℚ`).
-/

open Real

/-! ## Numeric helpers shared by several sources -/

/-- Truncation toward zero, the rounding used by the JavaScript `%` operator. -/
def fieldTrunc {K : Type*} [LinearOrderedField K] [FloorRing K] (q : K) : ℤ :=
  if 0 ≤ q then ⌊q⌋ else -⌊-q⌋

/-- The JavaScript remainder operator `a % b` (truncated division). -/
def jsMod {K : Type*} [LinearOrderedField K] [FloorRing K] (a b : K) : K :=
  a - b * (fieldTrunc (a / b) : K)

/-- The GLSL `mod(x, y)` function: `x - y * floor(x / y)`. -/
def glslMod {K : Type*} [LinearOrderedField K] [FloorRing K] (x y : K) : K :=
  x - y * (⌊x / y⌋ : K)

/-- From `Utils.js`: `clamp(value, min, max) = Math.min(Math.max(value, min), max)`. -/
def clamp {K : Type*} [LinearOrder K] (value lo hi : K) : K :=
  min (max value lo) hi

/-- The JavaScript `Math.atan2(y, x)` function (quadrant-aware arctangent). -/
noncomputable def mathAtan2 (y x : ℝ) : ℝ :=
  if 0 < x then Real.arctan (y / x)
  else if x < 0 then
    (if 0 ≤ y then Real.arctan (y / x) + Real.pi else Real.arctan (y / x) - Real.pi)
  else if 0 < y then Real.pi / 2
  else if y < 0 then -(Real.pi / 2)
  else 0

/-! ## 3D vectors (`THREE.Vector3` as a value type) -/

/-- A 3D vector with components in `K`. -/
structure Vec3 (K : Type*) where
  x : K
  y : K
  z : K
deriving DecidableEq

namespace Vec3

variable {K : Type*} [LinearOrderedField K]

/-- Componentwise addition. -/
def add (a b : Vec3 K) : Vec3 K := ⟨a.x + b.x, a.y + b.y, a.z + b.z⟩

/-- Componentwise subtraction. -/
def sub (a b : Vec3 K) : Vec3 K := ⟨a.x - b.x, a.y - b.y, a.z - b.z⟩

/-- Scalar multiplication (`multiplyScalar`). -/
def smul (c : K) (a : Vec3 K) : Vec3 K := ⟨c * a.x, c * a.y, c * a.z⟩

/-- Squared Euclidean length. -/
def normSq (a : Vec3 K) : K := a.x ^ 2 + a.y ^ 2 + a.z ^ 2

/-- Euclidean length of a real vector (`THREE.Vector3.length`). -/
noncomputable def len (a : Vec3 ℝ) : ℝ := Real.sqrt a.normSq

/-- The `THREE.Vector3.normalize` method: divide by `length() || 1`
(a zero vector is left unchanged). -/
noncomputable def normalize (a : Vec3 ℝ) : Vec3 ℝ :=
  smul (1 / (if a.len = 0 then 1 else a.len)) a

end Vec3

/-! ## Utils.js: spherical coordinate conversion and random surface points -/

/-- From `Utils.js` lines 14–35: convert latitude/longitude to a 3D position,
applying the +90° Y-axis rotation `(x, y, z) ↦ (z, y, -x)` that compensates the
globe mesh's static −90° rotation. -/
noncomputable def latLngToVector3 (lat lng radius : ℝ) : Vec3 ℝ :=
  let phi := ((90 - lat) * Real.pi) / 180
  let theta := ((-lng + 180) * Real.pi) / 180
  let x := radius * Real.sin phi * Real.cos theta
  let y := radius * Real.cos phi
  let z := radius * Real.sin phi * Real.sin theta
  ⟨z, y, -x⟩

/-- From `Utils.js` lines 275–295: convert a 3D position back to latitude and
longitude (returned as the pair `(lat, lng)`). -/
noncomputable def vector3ToLatLng (position : Vec3 ℝ) (radius : ℝ) : ℝ × ℝ :=
  let x := -position.z
  let y := position.y
  let z := position.x
  let normalizedPosition := Vec3.smul radius (Vec3.normalize ⟨x, y, z⟩)
  let phi := Real.arccos (clamp (normalizedPosition.y / radius) (-1) 1)
  let theta := mathAtan2 normalizedPosition.z normalizedPosition.x
  let lat := 90 - (phi * 180) / Real.pi
  let lng := jsMod ((theta * 180) / Real.pi + 180) 360 - 180
  (lat, lng)

/-- From `Utils.js` lines 42–49: `getRandomPointOnSphere(radius)`, with the two
`Math.random()` draws made explicit as `u` (first draw, used for `phi`) and `v`
(second draw, used for `theta`). -/
noncomputable def getRandomPointOnSphere (radius u v : ℝ) : Vec3 ℝ :=
  let phi := u * Real.pi * 2
  let theta := v * Real.pi
  let x := radius * Real.sin theta * Real.cos phi
  let y := radius * Real.sin theta * Real.sin phi
  let z := radius * Real.cos theta
  ⟨x, y, z⟩

/-- Modelled from the spec: §4.1 `randomSurfacePoint` claims uniform-area
sampling with polar angle `theta = acos(2u−1)` and azimuth `phi = 2πv` for
independent uniforms `u`, `v`. This definition follows the spec's words and is
compared against the source's `getRandomPointOnSphere`. -/
noncomputable def specRandomSurfacePoint (radius u v : ℝ) : Vec3 ℝ :=
  let theta := Real.arccos (2 * u - 1)
  let phi := 2 * Real.pi * v
  ⟨radius * Real.sin theta * Real.cos phi,
   radius * Real.sin theta * Real.sin phi,
   radius * Real.cos theta⟩

/-! ## Flight.js: cruise altitude and speed defaulting -/

/-- From `Flight.js` lines 50–55 (`createFlightPath`): the cruise altitude as a
function of the straight-line distance between the two surface points, with the
source constants `minCruiseAltitude = 15`, `maxCruiseAltitude = 200` and
`maxDistance = radius · π`. -/
noncomputable def cruiseAltitude (radius distance : ℝ) : ℝ :=
  let maxDistance := radius * Real.pi
  let distanceRatio := min (distance / (maxDistance * 0.3)) 1
  15 + (200 - 15) * Real.rpow distanceRatio 0.7

/-- The JavaScript expression `speed || 500` from `Flight.js` line 26, for a
numeric-or-absent `speed` field: `undefined` and `0` are falsy, every other
number (including negative numbers) is truthy. -/
def flightSpeedOf (speed : Option ℚ) : ℚ :=
  match speed with
  | none => 500
  | some s => if s = 0 then 500 else s

/-! ## Flight.js: the per-flight timeline state machine -/

/-- The timeline state of one `Flight` (`Flight.js`): the fields of the class
that `update` and `swapRoute` read or write. `α` is the type of the
departure/arrival records; curve regeneration is represented by recomputing
`duration` from the (new) endpoints via the ambient `durationOf` function,
mirroring `createFlightPath`/`calculateDuration` (`duration = pathLength / speed`). -/
structure FlightSim (α : Type*) (K : Type*) where
  departure : α
  arrival : α
  progress : K
  duration : K
  waitTime : K
  isWaiting : Bool
  waitTimer : K

/-- From `Flight.js` lines 130–169 (`update`) and 230–248 (`swapRoute`).
Returns the new state together with the curve parameter passed to
`getPointAt`/`getTangentAt` for rendering this tick (`none` on the tick that
performs the swap, where `update` returns without rendering). -/
def flightUpdate {α : Type*} {K : Type*} [LinearOrderedField K]
    (durationOf : α → α → K) (deltaTime : K) (f : FlightSim α K) :
    FlightSim α K × Option K :=
  if f.isWaiting then
    let waitTimer := f.waitTimer + deltaTime
    if f.waitTime ≤ waitTimer then
      -- swapRoute: swap departure/arrival and regenerate the path (and duration)
      ({ f with
          departure := f.arrival
          arrival := f.departure
          duration := durationOf f.arrival f.departure
          isWaiting := false
          waitTimer := 0
          progress := 0 }, none)
    else
      -- while waiting, keep the plane at the end of the curve
      ({ f with waitTimer := waitTimer }, some 1)
  else
    let progress := f.progress + deltaTime / f.duration
    if 1 ≤ progress then
      ({ f with progress := 1, isWaiting := true, waitTimer := 0 }, some 1)
    else
      ({ f with progress := progress }, some progress)

/-- Run a sequence of `update(dt)` calls, keeping only the states. -/
def flightRun {α : Type*} {K : Type*} [LinearOrderedField K]
    (durationOf : α → α → K) (f : FlightSim α K) (dts : List K) : FlightSim α K :=
  dts.foldl (fun g dt => (flightUpdate durationOf dt g).1) f

/-! ## MatrixPool.js: the reusable matrix pool -/

/-- A 4×4 matrix stored as its flat 16-element column-major `elements` array,
exactly as `THREE.Matrix4` stores it. -/
def Mat4 : Type := Fin 16 → ℚ

/-- The identity matrix (`new THREE.Matrix4()` and `Matrix4.identity()`). -/
def identityMat4 : Mat4 :=
  fun i => if i.val = 0 ∨ i.val = 5 ∨ i.val = 10 ∨ i.val = 15 then 1 else 0

/-- The `Matrix4.identity()` method: overwrite all elements with the identity. -/
def Mat4.setIdentity (_m : Mat4) : Mat4 := identityMat4

/-- The zero-scale matrix written by `matrix.makeScale(0, 0, 0)`:
all elements zero except the homogeneous `te[15] = 1`. -/
def zeroScaleMat4 : Mat4 := fun i => if i.val = 15 then 1 else 0

/-- State of a `MatrixPool` (`MatrixPool.js`): the free list `pool` (most
recently released first; JavaScript pushes and pops at the array's end) and the
capacity bound `maxSize`. The development-only `borrowed` debug set is elided. -/
structure MatrixPool where
  pool : List Mat4
  maxSize : ℕ

/-- From `MatrixPool.js` lines 23–42 (`get`): pop a matrix (or allocate a fresh
one if the pool is empty), reset it to the identity, and return it. -/
def MatrixPool.get (p : MatrixPool) : Mat4 × MatrixPool :=
  match p.pool with
  | [] => (Mat4.setIdentity identityMat4, p)
  | m :: rest => (Mat4.setIdentity m, { p with pool := rest })

/-- From `MatrixPool.js` lines 48–61 (`release`): return a matrix to the pool
only while the pool holds fewer than `maxSize` matrices; otherwise discard it. -/
def MatrixPool.release (p : MatrixPool) (m : Mat4) : MatrixPool :=
  if p.pool.length < p.maxSize then { p with pool := m :: p.pool } else p

/-- One client operation on the pool. -/
inductive PoolOp where
  | get : PoolOp
  | release : Mat4 → PoolOp

/-- Run a sequence of `get`/`release` calls against the pool. -/
def MatrixPool.run (p : MatrixPool) (ops : List PoolOp) : MatrixPool :=
  ops.foldl
    (fun q op =>
      match op with
      | PoolOp.get => (MatrixPool.get q).2
      | PoolOp.release m => MatrixPool.release q m)
    p

/-! ## InstancedPlanes (CPU-transform strategy) -/

/-- A quaternion, as used by `setInstanceTransform`'s `rotation` argument. -/
structure Quat (K : Type*) where
  x : K
  y : K
  z : K
  w : K

/-- From `MatrixPool.js` lines 111–143 (`composeMatrix`), the repository's
replica of `THREE.Matrix4.compose`: build a column-major 4×4 transform from
position, quaternion and per-axis scale. -/
def composeMatrix (position : Vec3 ℚ) (quaternion : Quat ℚ) (scale : Vec3 ℚ) : Mat4 :=
  let x := quaternion.x; let y := quaternion.y; let z := quaternion.z; let w := quaternion.w
  let x2 := x + x; let y2 := y + y; let z2 := z + z
  let xx := x * x2; let xy := x * y2; let xz := x * z2
  let yy := y * y2; let yz := y * z2; let zz := z * z2
  let wx := w * x2; let wy := w * y2; let wz := w * z2
  let sx := scale.x; let sy := scale.y; let sz := scale.z
  fun i =>
    match i.val with
    | 0 => (1 - (yy + zz)) * sx
    | 1 => (xy + wz) * sx
    | 2 => (xz - wy) * sx
    | 3 => 0
    | 4 => (xy - wz) * sy
    | 5 => (1 - (xx + zz)) * sy
    | 6 => (yz + wx) * sy
    | 7 => 0
    | 8 => (xz + wy) * sz
    | 9 => (yz - wx) * sz
    | 10 => (1 - (xx + yy)) * sz
    | 11 => 0
    | 12 => position.x
    | 13 => position.y
    | 14 => position.z
    | _ => 1

/-- State of an `InstancedPlanes` renderer (CPU strategy, `InstancedPlanes.js`):
the per-slot matrices and plane-type tags, the active count, the optional
global scale (`this.globalScale` is `undefined` until `setGlobalScale` is
called), the mesh visibility flag, and the two batched-upload dirty flags. -/
structure InstancedPlanes where
  maxCount : ℕ
  matrices : ℕ → Mat4
  planeTypes : ℕ → ℚ
  activeCount : ℕ
  globalScale : Option ℚ
  visible : Bool
  needsMatrixUpdate : Bool
  needsPlaneTypeUpdate : Bool

/-- The JavaScript expression `this.globalScale || 1`: `undefined` and `0` fall
back to `1`. -/
def globalScaleOr1 (g : Option ℚ) : ℚ :=
  match g with
  | none => 1
  | some s => if s = 0 then 1 else s

/-- From `InstancedPlanes.js` lines 145–172 (`setInstanceTransform`): write a
composed transform into a slot; a slot index at or beyond capacity, or an
invisible mesh, makes the call a no-op. -/
def InstancedPlanes.setInstanceTransform (s : InstancedPlanes) (instanceId : ℕ)
    (position : Vec3 ℚ) (rotation : Quat ℚ) (scale : ℚ) (planeType : Option ℚ)
    (triggerUpdate : Bool) : InstancedPlanes :=
  if s.maxCount ≤ instanceId then s
  else if ¬ s.visible then s
  else
    let finalScale := scale * globalScaleOr1 s.globalScale
    let matrix := composeMatrix position rotation ⟨finalScale, finalScale, finalScale⟩
    let s1 := { s with
      matrices := Function.update s.matrices instanceId matrix
      needsMatrixUpdate := s.needsMatrixUpdate || triggerUpdate }
    match planeType with
    | none => s1
    | some pt =>
        { s1 with
          planeTypes := Function.update s1.planeTypes instanceId (max 0 (min 7 pt))
          needsPlaneTypeUpdate := s1.needsPlaneTypeUpdate || triggerUpdate }

/-- From `InstancedPlanes.js` lines 174–181 (`hideInstance`): write the
zero-scale matrix into a slot; out-of-range indices are ignored. -/
def InstancedPlanes.hideInstance (s : InstancedPlanes) (instanceId : ℕ) : InstancedPlanes :=
  if s.maxCount ≤ instanceId then s
  else
    { s with
      matrices := Function.update s.matrices instanceId zeroScaleMat4
      needsMatrixUpdate := true }

/-- From `InstancedPlanes.js` lines 183–202 (`setActiveCount`): clamp the count
to capacity, and (when the mesh is visible) hide every slot at or beyond the
new active count while re-randomizing the plane type of every slot below it.
`draws i` stands for the `Math.floor(Math.random() * 8)` draw of iteration `i`;
the loop writes each slot exactly once, so it is rendered pointwise. -/
def InstancedPlanes.setActiveCount (s : InstancedPlanes) (draws : ℕ → ℚ)
    (count : ℕ) : InstancedPlanes :=
  let activeCount := min count s.maxCount
  if ¬ s.visible then { s with activeCount := activeCount }
  else
    { s with
      activeCount := activeCount
      matrices := fun i =>
        if i < s.maxCount ∧ activeCount ≤ i then zeroScaleMat4 else s.matrices i
      planeTypes := fun i =>
        if i < s.maxCount ∧ i < activeCount then draws i else s.planeTypes i
      needsMatrixUpdate := s.needsMatrixUpdate || decide (activeCount < s.maxCount)
      needsPlaneTypeUpdate := true }

/-! ## GPUInstancedPlanes (GPU-curve strategy): renderer state -/

/-- State of a `GPUInstancedPlanes` renderer (`GPUInstancedPlanes.js`): the six
flat packed-attribute arrays (four floats per instance each), the unused
duration/phase side arrays, the plane types, the active count and its shader
uniform, and the time and global-scale uniforms. -/
structure GPUInstancedPlanes where
  maxCount : ℕ
  pack1 : ℕ → ℚ
  pack2 : ℕ → ℚ
  pack3 : ℕ → ℚ
  pack4 : ℕ → ℚ
  pack5 : ℕ → ℚ
  pack6 : ℕ → ℚ
  flightDurations : ℕ → ℚ
  flightPhases : ℕ → ℚ
  planeTypes : ℕ → ℚ
  activeCount : ℕ
  activeCountUniform : ℕ
  timeUniform : ℚ
  globalScaleUniform : ℚ

/-- Four consecutive writes into a flat `Float32Array`, starting at `base`. -/
def upd4 (f : ℕ → ℚ) (base : ℕ) (a b c d : ℚ) : ℕ → ℚ :=
  Function.update (Function.update (Function.update (Function.update f
    base a) (base + 1) b) (base + 2) c) (base + 3) d

/-- From `GPUInstancedPlanes.js` lines 398–444 (`setFlightPath`): sample 7
evenly spaced points `curve.getPoint(i/6)` and pack them, together with the
duration, a random phase (`phaseDraw` stands for `Math.random() * 10`) and the
plane type `instanceId % 8`, into the six attribute arrays. Out-of-range
indices are ignored. -/
def GPUInstancedPlanes.setFlightPath (g : GPUInstancedPlanes) (instanceId : ℕ)
    (curvePoint : ℚ → Vec3 ℚ) (duration : ℚ) (phaseDraw : ℚ) : GPUInstancedPlanes :=
  if g.maxCount ≤ instanceId then g
  else
    let points : ℕ → Vec3 ℚ := fun i => curvePoint ((i : ℚ) / 6)
    let base := instanceId * 4
    { g with
      pack1 := upd4 g.pack1 base (points 0).x (points 0).y (points 0).z (points 1).x
      pack2 := upd4 g.pack2 base (points 1).y (points 1).z (points 2).x (points 2).y
      pack3 := upd4 g.pack3 base (points 2).z (points 3).x (points 3).y (points 3).z
      pack4 := upd4 g.pack4 base (points 4).x (points 4).y (points 4).z (points 5).x
      pack5 := upd4 g.pack5 base (points 5).y (points 5).z (points 6).x (points 6).y
      pack6 := upd4 g.pack6 base (points 6).z duration phaseDraw ((instanceId % 8 : ℕ) : ℚ) }

/-- From `GPUInstancedPlanes.js` lines 454–461 (`setActiveCount`): clamp the
count to capacity and mirror it into the `activeCount` shader uniform. -/
def GPUInstancedPlanes.setActiveCount (g : GPUInstancedPlanes) (count : ℕ) :
    GPUInstancedPlanes :=
  let ac := min count g.maxCount
  { g with activeCount := ac, activeCountUniform := ac }

/-- The vertex shader's per-instance visibility test (`GPUInstancedPlanes.js`
line 195): an instance whose id is at or beyond the `activeCount` uniform gets
the degenerate output `gl_Position = vec4(0.0)`. -/
def gpuVertexExcluded (activeCountUniform : ℕ) (instanceId : ℕ) : Prop :=
  (activeCountUniform : ℝ) ≤ (instanceId : ℝ)

/-! ## GPUInstancedPlanes: the vertex shader's curve evaluation -/

/-- A GLSL `vec4`. -/
structure Vec4 (K : Type*) where
  x : K
  y : K
  z : K
  w : K

/-- The six packed per-instance attributes seen by the vertex shader. -/
structure PackedPath (K : Type*) where
  c1 : Vec4 K
  c2 : Vec4 K
  c3 : Vec4 K
  c4 : Vec4 K
  c5 : Vec4 K
  c6 : Vec4 K

/-- The packed representation produced by `setFlightPath` for 7 control points,
a duration, a phase offset and a plane type (the same layout the six
`flightControlPackN` attribute writes use). -/
def packFlightPath {K : Type*} (pts : ℕ → Vec3 K) (duration phase planeType : K) :
    PackedPath K :=
  ⟨⟨(pts 0).x, (pts 0).y, (pts 0).z, (pts 1).x⟩,
   ⟨(pts 1).y, (pts 1).z, (pts 2).x, (pts 2).y⟩,
   ⟨(pts 2).z, (pts 3).x, (pts 3).y, (pts 3).z⟩,
   ⟨(pts 4).x, (pts 4).y, (pts 4).z, (pts 5).x⟩,
   ⟨(pts 5).y, (pts 5).z, (pts 6).x, (pts 6).y⟩,
   ⟨(pts 6).z, duration, phase, planeType⟩⟩

/-- One scalar component of the shader's `evaluateCatmullRom` (uniform
Catmull-Rom basis, `GPUInstancedPlanes.js` vertex shader lines 94–104). -/
def catmullRomComp {K : Type*} [LinearOrderedField K] (a0 a1 a2 a3 t : K) : K :=
  (1 / 2) * ((2 * a1) + (-a0 + a2) * t + (2 * a0 - 5 * a1 + 4 * a2 - a3) * t ^ 2 +
    (-a0 + 3 * a1 - 3 * a2 + a3) * t ^ 3)

/-- The shader's `evaluateCatmullRom(p0, p1, p2, p3, t)`, componentwise. -/
def evaluateCatmullRom {K : Type*} [LinearOrderedField K]
    (p0 p1 p2 p3 : Vec3 K) (t : K) : Vec3 K :=
  ⟨catmullRomComp p0.x p1.x p2.x p3.x t,
   catmullRomComp p0.y p1.y p2.y p3.y t,
   catmullRomComp p0.z p1.z p2.z p3.z t⟩

/-- The shader's `getControlPoint(index)`: unpack one of the 7 control points
from the six packed attributes (every index other than 0–5 yields point 6,
matching the shader's trailing `else`). -/
def shaderControlPoint {K : Type*} (pp : PackedPath K) (index : ℤ) : Vec3 K :=
  if index = 0 then ⟨pp.c1.x, pp.c1.y, pp.c1.z⟩
  else if index = 1 then ⟨pp.c1.w, pp.c2.x, pp.c2.y⟩
  else if index = 2 then ⟨pp.c2.z, pp.c2.w, pp.c3.x⟩
  else if index = 3 then ⟨pp.c3.y, pp.c3.z, pp.c3.w⟩
  else if index = 4 then ⟨pp.c4.x, pp.c4.y, pp.c4.z⟩
  else if index = 5 then ⟨pp.c4.w, pp.c5.x, pp.c5.y⟩
  else ⟨pp.c5.z, pp.c5.w, pp.c6.x⟩

/-- The shader's `evaluateFlightPath(t)` position (vertex shader lines
137–169): map `t ∈ [0,1]` to segment index `int(floor(4t))` and local
parameter `4t - segment`, then evaluate the uniform Catmull-Rom basis on the
segment's four control points (any segment other than 0–2 falls into the
shader's trailing `else`, which uses points 3–6). -/
def shaderFlightPathPos {K : Type*} [LinearOrderedField K] [FloorRing K]
    (pp : PackedPath K) (t : K) : Vec3 K :=
  let scaledT := t * 4
  let segment : ℤ := ⌊scaledT⌋
  let localT := scaledT - (segment : K)
  let p := shaderControlPoint pp
  if segment = 0 then evaluateCatmullRom (p 0) (p 1) (p 2) (p 3) localT
  else if segment = 1 then evaluateCatmullRom (p 1) (p 2) (p 3) (p 4) localT
  else if segment = 2 then evaluateCatmullRom (p 2) (p 3) (p 4) (p 5) localT
  else evaluateCatmullRom (p 3) (p 4) (p 5) (p 6) localT

/-- The GLSL `normalize` (division by the Euclidean length). -/
noncomputable def glslNormalize (v : Vec3 ℝ) : Vec3 ℝ :=
  Vec3.smul (1 / v.len) v

/-- The cycle position computed by the vertex shader's `main` (lines 200–226):
with `animTime = time · animationSpeed + phase` and the round-trip cycle
`totalCycleTime = 2 · duration + waitTime`, the instance flies the curve
forward, then backward, then holds control point 0 while waiting. -/
noncomputable def gpuCyclePosition (pp : PackedPath ℝ)
    (waitTime time animationSpeed : ℝ) : Vec3 ℝ :=
  let flightDuration := pp.c6.y
  let flightPhase := pp.c6.z
  let animTime := time * animationSpeed + flightPhase
  let totalCycleTime := flightDuration * 2 + waitTime
  let normalizedTime := glslMod animTime totalCycleTime
  if normalizedTime < flightDuration then
    shaderFlightPathPos pp (normalizedTime / flightDuration)
  else if normalizedTime < flightDuration * 2 then
    shaderFlightPathPos pp (1 - (normalizedTime - flightDuration) / flightDuration)
  else
    shaderControlPoint pp 0

/-- The shader's minimum-altitude adjustment (vertex shader lines 231–236):
positions closer than 50 units to the sphere surface are pushed out to
`earthRadius + 50`. -/
noncomputable def gpuAltitudeLift (earthRadius : ℝ) (p : Vec3 ℝ) : Vec3 ℝ :=
  let altitude := p.len - earthRadius
  let minAltitude : ℝ := 50
  if altitude < minAltitude then Vec3.smul (earthRadius + minAltitude) (glslNormalize p)
  else p

/-- The full per-vertex instance position of the GPU strategy: cycle position
followed by the minimum-altitude lift. -/
noncomputable def gpuRenderedPosition (pp : PackedPath ℝ)
    (waitTime time animationSpeed earthRadius : ℝ) : Vec3 ℝ :=
  gpuAltitudeLift earthRadius (gpuCyclePosition pp waitTime time animationSpeed)

/-! ## The CPU strategy's curve evaluation (`Flight.update` → `updatePlane`) -/

/-- Modelled from the spec: `Flight.update` evaluates its
`THREE.CatmullRomCurve3` — external library code, not part of this repository —
through `getPointAt`. The spec (§4.5) requires the shading-stage evaluator to
"reproduce the same cardinal-spline basis and segment-selection logic as
PathGenerator (4 segments spanning the 7 points, parameter `t∈[0,1]` mapped to
segment index `floor(4t)` and local parameter `4t - segment`)", so the CPU-side
curve evaluator is modelled as exactly that shared evaluator. -/
noncomputable def cpuCurvePointAt (pp : PackedPath ℝ) (t : ℝ) : Vec3 ℝ :=
  shaderFlightPathPos pp t

/-- From `Flight.js` lines 171–221 (`updatePlane`): the rendered position of
the CPU strategy lifts the curve position by `planeOffset = 8` along the
outward sphere normal `normalize(position)`. -/
noncomputable def cpuRenderedPosition (pp : PackedPath ℝ) (t : ℝ) : Vec3 ℝ :=
  let position := cpuCurvePointAt pp t
  let normal := Vec3.normalize position
  Vec3.add position (Vec3.smul 8 normal)

/-! ## MergedFlightPaths (trail renderer) -/

/-- State of a `MergedFlightPaths` trail renderer (`MergedFlightPaths.js`):
the flat position and color arrays (3 floats per sample,
`pointsPerPath + 1` samples per flight), the visible-flight count, the
visibility toggle and the two batched-upload dirty flags. -/
structure MergedFlightPaths where
  maxFlights : ℕ
  pointsPerPath : ℕ
  positions : ℕ → ℚ
  colors : ℕ → ℚ
  currentFlightCount : ℕ
  curvesVisible : Bool
  needsPositionUpdate : Bool
  needsColorUpdate : Bool

/-- Write the three components of a sample into a flat array at `base`,
`base + 1`, `base + 2`. -/
def writeTriple (f : ℕ → ℚ) (base : ℕ) (v : Vec3 ℚ) : ℕ → ℚ :=
  Function.update (Function.update (Function.update f base v.x) (base + 1) v.y)
    (base + 2) v.z

/-- From `MergedFlightPaths.js` lines 52–109 (`addFlightPath`): write the
`pointsPerPath + 1` samples of `curve.getPoints(pointsPerPath)` (`samples i` is
the i-th returned point) plus the duplicated break point into flight
`flightIndex`'s block of the position buffer, and the per-sample colors —
`hslToRgb hue 1 lightness` stands for `THREE.Color.setHSL` — into the color
buffer. Out-of-range indices and hidden curves make the call a no-op. -/
def MergedFlightPaths.addFlightPath (s : MergedFlightPaths)
    (hslToRgb : ℚ → ℚ → ℚ → Vec3 ℚ) (flightIndex : ℕ) (samples : ℕ → Vec3 ℚ)
    (departureLng : Option ℚ) : MergedFlightPaths :=
  if s.maxFlights ≤ flightIndex then s
  else if ¬ s.curvesVisible then s
  else
    let pointOffset := flightIndex * (s.pointsPerPath + 1)
    let positionOffset := pointOffset * 3
    let colorOffset := pointOffset * 3
    let originLng := match departureLng with | none => 0 | some lng => lng
    let hue := jsMod (originLng + 180) 360 / 360
    let n := s.pointsPerPath
    -- the loop over the n + 1 curve points
    let positions1 := (List.range (n + 1)).foldl
      (fun acc i => writeTriple acc (positionOffset + i * 3) (samples i)) s.positions
    let colors1 := (List.range (n + 1)).foldl
      (fun acc i =>
        writeTriple acc (colorOffset + i * 3)
          (hslToRgb hue 1 ((3 : ℚ) / 10 + ((i : ℚ) / (n : ℚ)) * (4 / 10)))) s.colors
    -- the duplicated break point (overwrites the last sample's slots)
    let positions2 := writeTriple positions1 (positionOffset + n * 3) (samples n)
    let colors2 := writeTriple colors1 (colorOffset + n * 3) (hslToRgb hue 1 (7 / 10))
    { s with
      positions := positions2
      colors := colors2
      needsPositionUpdate := true
      needsColorUpdate := true }

/-! ## Concrete data used to compare the two strategies -/

/-- A concrete 7-control-point flight path used to compare the CPU and GPU
evaluators: control point 3 (the cruise peak of one comparison) and control
point 4 are far apart, and all points lie well above the minimum-altitude
shell. -/
noncomputable def cexPts : ℕ → Vec3 ℝ := fun i =>
  if i = 3 then ⟨4000, 0, 0⟩
  else if i = 4 then ⟨0, 4000, 0⟩
  else ⟨3100, 0, 0⟩

/-- The packed form of `cexPts` with duration 2 seconds, phase offset 0 and
plane type 0, exactly as `setFlightPath` would pack it. -/
noncomputable def cexPack : PackedPath ℝ := packFlightPath cexPts 2 0 0

/-! # Theorems -/

/-! ## C6: cruise altitude is monotone in distance -/

/-- C6: for two origin/destination pairs with surface distances `d1 < d2`, both
below the saturation threshold `radius·π·0.3`, the cruise altitude computed by
`Flight.createFlightPath` for `d1` is at most that for `d2`. -/
theorem claim_C6_cruise_altitude_monotone (radius d1 d2 : ℝ)
    (hr : 0 < radius) (h1 : 0 ≤ d1) (h12 : d1 < d2)
    (h2 : d2 < radius * Real.pi * 0.3) :
    cruiseAltitude radius d1 ≤ cruiseAltitude radius d2 := by
  unfold cruiseAltitude
  have hden : (0:ℝ) < radius * Real.pi * 0.3 := by
    have := Real.pi_pos
    nlinarith
  have hx : (0:ℝ) ≤ min (d1 / (radius * Real.pi * 0.3)) 1 :=
    le_min (div_nonneg h1 hden.le) (by norm_num)
  have hxy : min (d1 / (radius * Real.pi * 0.3)) 1 ≤ min (d2 / (radius * Real.pi * 0.3)) 1 :=
    min_le_min ((div_le_div_right hden).mpr h12.le) le_rfl
  have hrp : Real.rpow (min (d1 / (radius * Real.pi * 0.3)) 1) 0.7 ≤
      Real.rpow (min (d2 / (radius * Real.pi * 0.3)) 1) 0.7 :=
    Real.rpow_le_rpow hx hxy (by norm_num : (0:ℝ) ≤ 0.7)
  dsimp only
  nlinarith [hrp]

/-- Witness for C6 at `radius = 1`, `d1 = 0`, `d2 = 1/2`. -/
theorem claim_C6_witness :
    cruiseAltitude 1 0 ≤ cruiseAltitude 1 (1/2) :=
  claim_C6_cruise_altitude_monotone 1 0 (1/2) (by norm_num) (by norm_num)
    (by norm_num) (by nlinarith [Real.pi_gt_three])

/-! ## C8: speed defaulting -/

/-- C8 counterexample: a record with the negative speed `-1` yields a flight
whose speed is `-1`, not the default `500` the claim requires (in JavaScript a
negative number is truthy, so `speed || 500` keeps it). -/
theorem claim_C8_counterexample :
    flightSpeedOf (some (-1)) = -1 ∧ flightSpeedOf (some (-1)) ≠ 500 := by
  refine ⟨by norm_num [flightSpeedOf], by norm_num [flightSpeedOf]⟩

/-- C8 amended: the flight's speed equals the record's speed whenever it is
present and nonzero (including negative values); it defaults to `500` exactly
when the speed is absent or zero. -/
theorem claim_C8_speed_default (s : ℚ) (hs : s ≠ 0) :
    flightSpeedOf (some s) = s ∧ flightSpeedOf none = 500 ∧
    flightSpeedOf (some 0) = 500 := by
  refine ⟨?_, rfl, ?_⟩ <;> simp [flightSpeedOf, hs]

/-- Witness for C8 at the present, nonzero speed `-250`. -/
theorem claim_C8_witness :
    flightSpeedOf (some (-250)) = -250 ∧ flightSpeedOf none = 500 ∧
    flightSpeedOf (some 0) = 500 :=
  claim_C8_speed_default (-250) (by norm_num)

/-! ## C9: random point on sphere -/

/-- C9 counterexample: at `radius = 1`, `u = v = 1/4` the source's
`getRandomPointOnSphere` and the spec's uniform-area `randomSurfacePoint`
return different points (their z-coordinates are `cos(π/4) = √2/2 > 0` and
`2·(1/4) − 1 = −1/2 < 0`). -/
theorem claim_C9_counterexample :
    getRandomPointOnSphere 1 (1/4) (1/4) ≠ specRandomSurfacePoint 1 (1/4) (1/4) := by
  intro h
  have hz := congrArg Vec3.z h
  simp only [getRandomPointOnSphere, specRandomSurfacePoint] at hz
  rw [show ((1:ℝ)/4) * Real.pi = Real.pi / 4 by ring, Real.cos_pi_div_four,
    Real.cos_arccos (by norm_num) (by norm_num)] at hz
  nlinarith [Real.sqrt_nonneg 2, hz]

/-- C9 amended: `getRandomPointOnSphere` does return a point on the sphere of
the given radius, but it samples the polar angle uniformly (`theta = v·π`,
`phi = u·2π`) — the naive scheme that clusters points at the poles — rather
than via `theta = acos(2u−1)`. -/
theorem claim_C9_amended (radius u v : ℝ) :
    (getRandomPointOnSphere radius u v).normSq = radius ^ 2 ∧
    (getRandomPointOnSphere radius u v).z = radius * Real.cos (v * Real.pi) := by
  constructor
  · simp only [getRandomPointOnSphere, Vec3.normSq]
    have h1 := Real.sin_sq_add_cos_sq (v * Real.pi)
    have h2 := Real.sin_sq_add_cos_sq (u * Real.pi * 2)
    linear_combination radius ^ 2 * (Real.sin (v * Real.pi)) ^ 2 * h2 + radius ^ 2 * h1
  · simp only [getRandomPointOnSphere]

/-! ## C10: matrix pool -/

/-- Helper: `get` never grows the pool and keeps the capacity. -/
theorem matrixPool_get_bound (p : MatrixPool) :
    (MatrixPool.get p).2.pool.length ≤ p.pool.length ∧
    (MatrixPool.get p).2.maxSize = p.maxSize := by
  obtain ⟨pool, maxSize⟩ := p
  cases pool with
  | nil => exact ⟨le_rfl, rfl⟩
  | cons m rest => exact ⟨by simp [MatrixPool.get], rfl⟩

/-- Helper: `release` preserves the size bound and the capacity. -/
theorem matrixPool_release_bound (p : MatrixPool) (m : Mat4)
    (h : p.pool.length ≤ p.maxSize) :
    (MatrixPool.release p m).pool.length ≤ p.maxSize ∧
    (MatrixPool.release p m).maxSize = p.maxSize := by
  unfold MatrixPool.release
  by_cases hlt : p.pool.length < p.maxSize
  · refine ⟨?_, by simp [hlt]⟩
    simp only [hlt, if_pos]
    simpa using hlt
  · exact ⟨by simp [hlt, h], by simp [hlt]⟩

/-- Helper: any sequence of `get`/`release` operations keeps the pool within
its capacity bound. -/
theorem matrixPool_run_bound (ops : List PoolOp) (p : MatrixPool)
    (h : p.pool.length ≤ p.maxSize) :
    (MatrixPool.run p ops).pool.length ≤ p.maxSize := by
  induction ops generalizing p with
  | nil => exact h
  | cons op ops ih =>
      cases op with
      | get =>
          have hrun : MatrixPool.run p (PoolOp.get :: ops) =
              MatrixPool.run (MatrixPool.get p).2 ops := rfl
          have hb := matrixPool_get_bound p
          have := ih (MatrixPool.get p).2 (by rw [hb.2]; exact hb.1.trans h)
          rw [hrun]
          rwa [hb.2] at this
      | release m =>
          have hrun : MatrixPool.run p (PoolOp.release m :: ops) =
              MatrixPool.run (MatrixPool.release p m) ops := rfl
          have hb := matrixPool_release_bound p m h
          have := ih (MatrixPool.release p m) (by rw [hb.2]; exact hb.1)
          rw [hrun]
          rwa [hb.2] at this

/-- C10: every matrix handed out by `MatrixPool.get` is the identity matrix,
and from any pool holding at most `maxSize` matrices, no sequence of `get` and
`release` calls can grow the pool beyond `maxSize`. -/
theorem claim_C10_matrix_pool (p : MatrixPool) (h : p.pool.length ≤ p.maxSize)
    (ops : List PoolOp) :
    (MatrixPool.get p).1 = identityMat4 ∧
    (MatrixPool.run p ops).pool.length ≤ p.maxSize := by
  refine ⟨?_, matrixPool_run_bound ops p h⟩
  unfold MatrixPool.get
  cases p.pool <;> rfl

/-- Witness for C10: an initially empty pool of capacity 2, exercised with
three releases and a get. -/
theorem claim_C10_witness :
    (MatrixPool.get ⟨[], 2⟩).1 = identityMat4 ∧
    (MatrixPool.run ⟨[], 2⟩
      [PoolOp.release zeroScaleMat4, PoolOp.release zeroScaleMat4,
       PoolOp.release zeroScaleMat4, PoolOp.get]).pool.length ≤ 2 :=
  claim_C10_matrix_pool ⟨[], 2⟩ (by simp)
    [PoolOp.release zeroScaleMat4, PoolOp.release zeroScaleMat4,
     PoolOp.release zeroScaleMat4, PoolOp.get]

/-! ## C3: timeline invariants -/

/-- Helper: one `update(dt)` with `dt ≥ 0` preserves `progress ∈ [0, 1]` and
positivity of the duration, provided regenerated durations are positive. -/
theorem flightUpdate_progress_inv {α : Type*} (durationOf : α → α → ℚ)
    (hdur : ∀ a b, 0 < durationOf a b) (dt : ℚ) (hdt : 0 ≤ dt)
    (f : FlightSim α ℚ) (h0 : 0 ≤ f.progress) (h1 : f.progress ≤ 1)
    (hd : 0 < f.duration) :
    0 ≤ (flightUpdate durationOf dt f).1.progress ∧
    (flightUpdate durationOf dt f).1.progress ≤ 1 ∧
    0 < (flightUpdate durationOf dt f).1.duration := by
  unfold flightUpdate
  by_cases hw : f.isWaiting
  · by_cases ht : f.waitTime ≤ f.waitTimer + dt
    · simp [hw, ht, hdur]
    · simp [hw, ht, h0, h1, hd]
  · by_cases hp : 1 ≤ f.progress + dt / f.duration
    · simp [hw, hp, hd]
    · have hnn : 0 ≤ f.progress + dt / f.duration :=
        add_nonneg h0 (div_nonneg hdt hd.le)
      simp [hw, hp, hnn, le_of_not_le hp, hd]

/-- Helper: the invariant extends to arbitrary nonnegative `dt` sequences. -/
theorem flightRun_progress_inv {α : Type*} (durationOf : α → α → ℚ)
    (hdur : ∀ a b, 0 < durationOf a b) (dts : List ℚ) (hdts : ∀ dt ∈ dts, 0 ≤ dt)
    (f : FlightSim α ℚ) (h0 : 0 ≤ f.progress) (h1 : f.progress ≤ 1)
    (hd : 0 < f.duration) :
    0 ≤ (flightRun durationOf f dts).progress ∧
    (flightRun durationOf f dts).progress ≤ 1 ∧
    0 < (flightRun durationOf f dts).duration := by
  induction dts generalizing f with
  | nil => exact ⟨h0, h1, hd⟩
  | cons dt dts ih =>
      have hstep := flightUpdate_progress_inv durationOf hdur dt
        (hdts dt (List.mem_cons_self dt dts)) f h0 h1 hd
      exact ih (fun d hdm => hdts d (List.mem_cons_of_mem dt hdm))
        (flightUpdate durationOf dt f).1 hstep.1 hstep.2.1 hstep.2.2

/-- C3: (a) over any sequence of `update(dt)` calls with `dt ≥ 0`, `progress`
stays in `[0, 1]`; (b) from a flying state, the update whose `dt` brings the
accumulated flying time `progress·duration + dt` up to `duration` clamps
`progress` to 1 and enters the waiting state; (c) from a waiting state, the
update whose `dt` brings the accumulated waiting time up to `waitTime` returns
the flight to the flying state with `progress = 0` and the departure/arrival
endpoints swapped. -/
theorem claim_C3_timeline {α : Type*} (durationOf : α → α → ℚ)
    (hdur : ∀ a b, 0 < durationOf a b) (f : FlightSim α ℚ)
    (h0 : 0 ≤ f.progress) (h1 : f.progress ≤ 1) (hd : 0 < f.duration) :
    (∀ dts : List ℚ, (∀ dt ∈ dts, 0 ≤ dt) →
      0 ≤ (flightRun durationOf f dts).progress ∧
      (flightRun durationOf f dts).progress ≤ 1) ∧
    (∀ dt : ℚ, 0 ≤ dt → f.isWaiting = false →
      f.duration ≤ f.progress * f.duration + dt →
      (flightUpdate durationOf dt f).1.isWaiting = true ∧
      (flightUpdate durationOf dt f).1.progress = 1) ∧
    (∀ dt : ℚ, 0 ≤ dt → f.isWaiting = true →
      f.waitTime ≤ f.waitTimer + dt →
      (flightUpdate durationOf dt f).1.isWaiting = false ∧
      (flightUpdate durationOf dt f).1.progress = 0 ∧
      (flightUpdate durationOf dt f).1.departure = f.arrival ∧
      (flightUpdate durationOf dt f).1.arrival = f.departure) := by
  refine ⟨?_, ?_, ?_⟩
  · intro dts hdts
    have h := flightRun_progress_inv durationOf hdur dts hdts f h0 h1 hd
    exact ⟨h.1, h.2.1⟩
  · intro dt _hdt hw hacc
    have hp : 1 ≤ f.progress + dt / f.duration := by
      have hdiv : (f.progress * f.duration + dt) / f.duration =
          f.progress + dt / f.duration := by
        field_simp
      have h2 := (div_le_div_right hd).mpr hacc
      rw [div_self hd.ne', hdiv] at h2
      exact h2
    unfold flightUpdate
    simp [hw, hp]
  · intro dt _hdt hw hacc
    unfold flightUpdate
    simp [hw, hacc]

/-- Witness for C3: a concrete flight with duration 1 and wait time 5,
exercised through a nonnegative `dt` sequence, a clamping flying update and a
swapping waiting update. -/
theorem claim_C3_witness :
    (0 ≤ (flightRun (fun _ _ : Bool => (1:ℚ)) ⟨false, true, 0, 1, 5, false, 0⟩
        [1, 3, 2]).progress ∧
      (flightRun (fun _ _ : Bool => (1:ℚ)) ⟨false, true, 0, 1, 5, false, 0⟩
        [1, 3, 2]).progress ≤ 1) ∧
    ((flightUpdate (fun _ _ : Bool => (1:ℚ)) 1
        ⟨false, true, 0, 1, 5, false, 0⟩).1.isWaiting = true ∧
      (flightUpdate (fun _ _ : Bool => (1:ℚ)) 1
        ⟨false, true, 0, 1, 5, false, 0⟩).1.progress = 1) ∧
    ((flightUpdate (fun _ _ : Bool => (1:ℚ)) 5
        ⟨false, true, 1, 1, 5, true, 0⟩).1.isWaiting = false ∧
      (flightUpdate (fun _ _ : Bool => (1:ℚ)) 5
        ⟨false, true, 1, 1, 5, true, 0⟩).1.progress = 0 ∧
      (flightUpdate (fun _ _ : Bool => (1:ℚ)) 5
        ⟨false, true, 1, 1, 5, true, 0⟩).1.departure = true ∧
      (flightUpdate (fun _ _ : Bool => (1:ℚ)) 5
        ⟨false, true, 1, 1, 5, true, 0⟩).1.arrival = false) := by
  refine ⟨?_, ?_, ?_⟩
  · exact (claim_C3_timeline (fun _ _ : Bool => (1:ℚ)) (fun _ _ => by norm_num)
      ⟨false, true, 0, 1, 5, false, 0⟩ (by norm_num) (by norm_num) (by norm_num)).1
      [1, 3, 2] (by norm_num)
  · exact (claim_C3_timeline (fun _ _ : Bool => (1:ℚ)) (fun _ _ => by norm_num)
      ⟨false, true, 0, 1, 5, false, 0⟩ (by norm_num) (by norm_num) (by norm_num)).2.1
      1 (by norm_num) rfl (by norm_num)
  · exact (claim_C3_timeline (fun _ _ : Bool => (1:ℚ)) (fun _ _ => by norm_num)
      ⟨false, true, 1, 1, 5, true, 0⟩ (by norm_num) (by norm_num) (by norm_num)).2.2
      5 (by norm_num) rfl (by norm_num)

/-! ## C4: setActiveCount -/

/-- C4: after `setActiveCount(n)` the stored count is `n` clamped to capacity;
in the CPU strategy (with a visible mesh) every slot at or beyond the clamped
count holds the zero-scale matrix while every slot below it keeps its previous
matrix; in the GPU strategy the `activeCount` uniform equals the clamped count
and the vertex shader's degenerate-output test excludes exactly the slots at or
beyond it. -/
theorem claim_C4_active_count (s : InstancedPlanes) (draws : ℕ → ℚ) (n : ℕ)
    (hv : s.visible = true) (g : GPUInstancedPlanes) :
    (s.setActiveCount draws n).activeCount = min n s.maxCount ∧
    (∀ i, i < s.maxCount → min n s.maxCount ≤ i →
      (s.setActiveCount draws n).matrices i = zeroScaleMat4) ∧
    (∀ i, i < min n s.maxCount →
      (s.setActiveCount draws n).matrices i = s.matrices i) ∧
    (g.setActiveCount n).activeCountUniform = min n g.maxCount ∧
    (∀ i, min n g.maxCount ≤ i →
      gpuVertexExcluded (g.setActiveCount n).activeCountUniform i) ∧
    (∀ i, i < min n g.maxCount →
      ¬ gpuVertexExcluded (g.setActiveCount n).activeCountUniform i) := by
  refine ⟨?_, ?_, ?_, ?_, ?_, ?_⟩
  · unfold InstancedPlanes.setActiveCount
    simp [hv]
  · intro i hi hni
    unfold InstancedPlanes.setActiveCount
    simp [hv, hi, hni]
    intro hin
    exact ((by omega : False).elim)
  · intro i hi
    unfold InstancedPlanes.setActiveCount
    simp [hv]
    intro h1 h2
    exact ((by omega : False).elim)
  · unfold GPUInstancedPlanes.setActiveCount
    rfl
  · intro i hi
    unfold GPUInstancedPlanes.setActiveCount gpuVertexExcluded
    exact_mod_cast hi
  · intro i hi
    unfold GPUInstancedPlanes.setActiveCount gpuVertexExcluded
    simp only [not_le]
    exact_mod_cast hi

/-- Witness for C4: a two-slot CPU renderer and a two-slot GPU renderer with
`setActiveCount(1)`: slot 1 is hidden/excluded, slot 0 is untouched/included. -/
theorem claim_C4_witness :
    ((InstancedPlanes.mk 2 (fun _ => identityMat4) (fun _ => 0) 0 none true false
        false).setActiveCount (fun _ => 1) 1).activeCount = min 1 2 ∧
    ((InstancedPlanes.mk 2 (fun _ => identityMat4) (fun _ => 0) 0 none true false
        false).setActiveCount (fun _ => 1) 1).matrices 1 = zeroScaleMat4 ∧
    ((InstancedPlanes.mk 2 (fun _ => identityMat4) (fun _ => 0) 0 none true false
        false).setActiveCount (fun _ => 1) 1).matrices 0 = identityMat4 ∧
    ((GPUInstancedPlanes.mk 2 (fun _ => 0) (fun _ => 0) (fun _ => 0) (fun _ => 0)
        (fun _ => 0) (fun _ => 0) (fun _ => 0) (fun _ => 0) (fun _ => 0) 0 0 0
        1).setActiveCount 1).activeCountUniform = min 1 2 ∧
    gpuVertexExcluded ((GPUInstancedPlanes.mk 2 (fun _ => 0) (fun _ => 0)
        (fun _ => 0) (fun _ => 0) (fun _ => 0) (fun _ => 0) (fun _ => 0)
        (fun _ => 0) (fun _ => 0) 0 0 0 1).setActiveCount 1).activeCountUniform 1 ∧
    ¬ gpuVertexExcluded ((GPUInstancedPlanes.mk 2 (fun _ => 0) (fun _ => 0)
        (fun _ => 0) (fun _ => 0) (fun _ => 0) (fun _ => 0) (fun _ => 0)
        (fun _ => 0) (fun _ => 0) 0 0 0 1).setActiveCount 1).activeCountUniform 0 := by
  have h := claim_C4_active_count
    (InstancedPlanes.mk 2 (fun _ => identityMat4) (fun _ => 0) 0 none true false false)
    (fun _ => 1) 1 rfl
    (GPUInstancedPlanes.mk 2 (fun _ => 0) (fun _ => 0) (fun _ => 0) (fun _ => 0)
      (fun _ => 0) (fun _ => 0) (fun _ => 0) (fun _ => 0) (fun _ => 0) 0 0 0 1)
  exact ⟨h.1, h.2.1 1 (by norm_num) (by norm_num), h.2.2.1 0 (by norm_num),
    h.2.2.2.1, h.2.2.2.2.1 1 (by norm_num), h.2.2.2.2.2 0 (by norm_num)⟩

/-! ## C7: out-of-range slot indices are silently ignored -/

/-- C7: every slot-addressed operation called with an index at or beyond the
renderer's capacity — `setInstanceTransform` and `hideInstance` on
`InstancedPlanes`, `setFlightPath` on `GPUInstancedPlanes`, and `addFlightPath`
on `MergedFlightPaths` — returns with the whole renderer state unchanged. -/
theorem claim_C7_out_of_range_noop (s : InstancedPlanes) (g : GPUInstancedPlanes)
    (m : MergedFlightPaths) (i1 i2 i3 i4 : ℕ) (pos : Vec3 ℚ) (rot : Quat ℚ)
    (scale : ℚ) (pt : Option ℚ) (trig : Bool) (curvePoint : ℚ → Vec3 ℚ)
    (dur ph : ℚ) (hsl : ℚ → ℚ → ℚ → Vec3 ℚ) (samples : ℕ → Vec3 ℚ)
    (lngOpt : Option ℚ)
    (h1 : s.maxCount ≤ i1) (h2 : s.maxCount ≤ i2) (h3 : g.maxCount ≤ i3)
    (h4 : m.maxFlights ≤ i4) :
    s.setInstanceTransform i1 pos rot scale pt trig = s ∧
    s.hideInstance i2 = s ∧
    g.setFlightPath i3 curvePoint dur ph = g ∧
    m.addFlightPath hsl i4 samples lngOpt = m := by
  refine ⟨?_, ?_, ?_, ?_⟩
  · unfold InstancedPlanes.setInstanceTransform
    rw [if_pos h1]
  · unfold InstancedPlanes.hideInstance
    rw [if_pos h2]
  · unfold GPUInstancedPlanes.setFlightPath
    rw [if_pos h3]
  · unfold MergedFlightPaths.addFlightPath
    rw [if_pos h4]

/-- Witness for C7: capacity-1 renderers addressed at slot 3. -/
theorem claim_C7_witness :
    (InstancedPlanes.mk 1 (fun _ => identityMat4) (fun _ => 0) 0 none true false
        false).setInstanceTransform 3 ⟨0, 0, 0⟩ ⟨0, 0, 0, 1⟩ 1 none false =
      InstancedPlanes.mk 1 (fun _ => identityMat4) (fun _ => 0) 0 none true false
        false ∧
    (InstancedPlanes.mk 1 (fun _ => identityMat4) (fun _ => 0) 0 none true false
        false).hideInstance 3 =
      InstancedPlanes.mk 1 (fun _ => identityMat4) (fun _ => 0) 0 none true false
        false ∧
    (GPUInstancedPlanes.mk 1 (fun _ => 0) (fun _ => 0) (fun _ => 0) (fun _ => 0)
        (fun _ => 0) (fun _ => 0) (fun _ => 0) (fun _ => 0) (fun _ => 0) 0 0 0
        1).setFlightPath 3 (fun _ => ⟨0, 0, 0⟩) 1 0 =
      GPUInstancedPlanes.mk 1 (fun _ => 0) (fun _ => 0) (fun _ => 0) (fun _ => 0)
        (fun _ => 0) (fun _ => 0) (fun _ => 0) (fun _ => 0) (fun _ => 0) 0 0 0 1 ∧
    (MergedFlightPaths.mk 1 100 (fun _ => 0) (fun _ => 0) 0 true false
        false).addFlightPath (fun _ _ _ => ⟨0, 0, 0⟩) 3 (fun _ => ⟨0, 0, 0⟩) none =
      MergedFlightPaths.mk 1 100 (fun _ => 0) (fun _ => 0) 0 true false false :=
  claim_C7_out_of_range_noop
    (InstancedPlanes.mk 1 (fun _ => identityMat4) (fun _ => 0) 0 none true false false)
    (GPUInstancedPlanes.mk 1 (fun _ => 0) (fun _ => 0) (fun _ => 0) (fun _ => 0)
      (fun _ => 0) (fun _ => 0) (fun _ => 0) (fun _ => 0) (fun _ => 0) 0 0 0 1)
    (MergedFlightPaths.mk 1 100 (fun _ => 0) (fun _ => 0) 0 true false false)
    3 3 3 3 ⟨0, 0, 0⟩ ⟨0, 0, 0, 1⟩ 1 none false (fun _ => ⟨0, 0, 0⟩) 1 0
    (fun _ _ _ => ⟨0, 0, 0⟩) (fun _ => ⟨0, 0, 0⟩) none
    (by norm_num) (by norm_num) (by norm_num) (by norm_num)

/-! ## C5: trail buffer block locality -/

/-- Helper: a triple write leaves every index outside `[base, base + 3)`
unchanged. -/
theorem writeTriple_outside (f : ℕ → ℚ) (base : ℕ) (v : Vec3 ℚ) (k : ℕ)
    (h : k < base ∨ base + 3 ≤ k) :
    writeTriple f base v k = f k := by
  have h0 : k ≠ base := by omega
  have h1 : k ≠ base + 1 := by omega
  have h2 : k ≠ base + 2 := by omega
  unfold writeTriple
  rw [Function.update_noteq h2, Function.update_noteq h1, Function.update_noteq h0]

/-- Helper: a fold of triple writes whose bases all avoid index `k` leaves
index `k` unchanged. -/
theorem foldl_writeTriple_outside (g : ℕ → ℕ) (vs : ℕ → Vec3 ℚ) (L : List ℕ)
    (f : ℕ → ℚ) (k : ℕ) (h : ∀ i ∈ L, k < g i ∨ g i + 3 ≤ k) :
    (L.foldl (fun acc i => writeTriple acc (g i) (vs i)) f) k = f k := by
  induction L generalizing f with
  | nil => rfl
  | cons a L ih =>
      simp only [List.foldl_cons]
      rw [ih _ (fun i hi => h i (List.mem_cons_of_mem a hi)),
        writeTriple_outside f (g a) (vs a) k (h a (List.mem_cons_self a L))]

/-- C5: `addFlightPath(i, curve, data)` mutates the position and color buffers
only inside flight `i`'s contiguous block — at the flat float level, indices
`[i·(pointsPerPath+1)·3, (i+1)·(pointsPerPath+1)·3)` — and consequently never
touches any other flight's block. -/
theorem claim_C5_block_locality (s : MergedFlightPaths)
    (hsl : ℚ → ℚ → ℚ → Vec3 ℚ) (i : ℕ) (samples : ℕ → Vec3 ℚ)
    (lngOpt : Option ℚ) :
    (∀ k, (k < i * (s.pointsPerPath + 1) * 3 ∨
        (i + 1) * (s.pointsPerPath + 1) * 3 ≤ k) →
      (s.addFlightPath hsl i samples lngOpt).positions k = s.positions k ∧
      (s.addFlightPath hsl i samples lngOpt).colors k = s.colors k) ∧
    (∀ j, j ≠ i → ∀ k, j * (s.pointsPerPath + 1) * 3 ≤ k →
      k < (j + 1) * (s.pointsPerPath + 1) * 3 →
      (s.addFlightPath hsl i samples lngOpt).positions k = s.positions k ∧
      (s.addFlightPath hsl i samples lngOpt).colors k = s.colors k) := by
  have main : ∀ k, (k < i * (s.pointsPerPath + 1) * 3 ∨
      (i + 1) * (s.pointsPerPath + 1) * 3 ≤ k) →
      (s.addFlightPath hsl i samples lngOpt).positions k = s.positions k ∧
      (s.addFlightPath hsl i samples lngOpt).colors k = s.colors k := by
    intro k hk
    unfold MergedFlightPaths.addFlightPath
    by_cases hrange : s.maxFlights ≤ i
    · simp [hrange]
    by_cases hvis : s.curvesVisible
    · have hblock : ∀ i', i' ∈ List.range (s.pointsPerPath + 1) →
          k < i * (s.pointsPerPath + 1) * 3 + i' * 3 ∨
          (i * (s.pointsPerPath + 1) * 3 + i' * 3) + 3 ≤ k := by
        intro i' hi'
        rw [List.mem_range] at hi'
        rcases hk with hk | hk
        · exact Or.inl (by omega)
        · right
          have : i' * 3 + 3 ≤ (s.pointsPerPath + 1) * 3 := by omega
          have hexp : (i + 1) * (s.pointsPerPath + 1) * 3 =
              i * (s.pointsPerPath + 1) * 3 + (s.pointsPerPath + 1) * 3 := by ring
          omega
      have hlast : k < i * (s.pointsPerPath + 1) * 3 + s.pointsPerPath * 3 ∨
          (i * (s.pointsPerPath + 1) * 3 + s.pointsPerPath * 3) + 3 ≤ k := by
        have := hblock s.pointsPerPath (by simp)
        simpa using this
      simp only [hrange, hvis, if_false, if_true, ite_not, not_true, not_false_iff]
      constructor
      · show writeTriple _ (i * (s.pointsPerPath + 1) * 3 + s.pointsPerPath * 3) _ k =
          s.positions k
        rw [writeTriple_outside _ _ _ _ hlast]
        exact foldl_writeTriple_outside
          (fun i' => i * (s.pointsPerPath + 1) * 3 + i' * 3) _ _ _ _ hblock
      · show writeTriple _ (i * (s.pointsPerPath + 1) * 3 + s.pointsPerPath * 3) _ k =
          s.colors k
        rw [writeTriple_outside _ _ _ _ hlast]
        exact foldl_writeTriple_outside
          (fun i' => i * (s.pointsPerPath + 1) * 3 + i' * 3) _ _ _ _ hblock
    · simp [hrange, hvis]
  refine ⟨main, ?_⟩
  intro j hj k hk1 hk2
  apply main
  rcases Nat.lt_or_ge j i with hji | hji
  · left
    have : (j + 1) * ((s.pointsPerPath + 1) * 3) ≤ i * ((s.pointsPerPath + 1) * 3) :=
      Nat.mul_le_mul_right _ (by omega)
    calc k < (j + 1) * (s.pointsPerPath + 1) * 3 := hk2
      _ = (j + 1) * ((s.pointsPerPath + 1) * 3) := by ring
      _ ≤ i * ((s.pointsPerPath + 1) * 3) := this
      _ = i * (s.pointsPerPath + 1) * 3 := by ring
  · right
    have hij : i + 1 ≤ j := by omega
    have : (i + 1) * ((s.pointsPerPath + 1) * 3) ≤ j * ((s.pointsPerPath + 1) * 3) :=
      Nat.mul_le_mul_right _ hij
    calc (i + 1) * (s.pointsPerPath + 1) * 3
        = (i + 1) * ((s.pointsPerPath + 1) * 3) := by ring
      _ ≤ j * ((s.pointsPerPath + 1) * 3) := this
      _ = j * (s.pointsPerPath + 1) * 3 := by ring
      _ ≤ k := hk1

/-- Witness for C5: adding flight 0's path in a two-flight buffer leaves flat
index 303 — the first index of flight 1's block — unchanged in both buffers. -/
theorem claim_C5_witness :
    ((MergedFlightPaths.mk 2 100 (fun _ => 0) (fun _ => 0) 0 true false
        false).addFlightPath (fun _ _ _ => ⟨1, 1, 1⟩) 0 (fun _ => ⟨7, 8, 9⟩)
        none).positions 303 =
      (MergedFlightPaths.mk 2 100 (fun _ => 0) (fun _ => 0) 0 true false
        false).positions 303 ∧
    ((MergedFlightPaths.mk 2 100 (fun _ => 0) (fun _ => 0) 0 true false
        false).addFlightPath (fun _ _ _ => ⟨1, 1, 1⟩) 0 (fun _ => ⟨7, 8, 9⟩)
        none).colors 303 =
      (MergedFlightPaths.mk 2 100 (fun _ => 0) (fun _ => 0) 0 true false
        false).colors 303 :=
  (claim_C5_block_locality
    (MergedFlightPaths.mk 2 100 (fun _ => 0) (fun _ => 0) 0 true false false)
    (fun _ _ _ => ⟨1, 1, 1⟩) 0 (fun _ => ⟨7, 8, 9⟩) none).2 1 (by norm_num) 303
    (by norm_num) (by norm_num)

/-! ## C2: the lat/lng round trip -/

/-- Helper: `latLngToVector3 0 0 1` evaluates to the point `(0, 0, 1)`. -/
theorem latLngToVector3_at_origin : latLngToVector3 0 0 1 = ⟨0, 0, 1⟩ := by
  unfold latLngToVector3
  rw [show ((90 - (0:ℝ)) * Real.pi) / 180 = Real.pi / 2 by ring,
    show ((-(0:ℝ) + 180) * Real.pi) / 180 = Real.pi by ring]
  simp [Real.sin_pi_div_two, Real.cos_pi_div_two, Real.sin_pi, Real.cos_pi]

/-- C2 failing input: the round trip at the non-pole input
`lat = 0, lng = 0, radius = 1` returns `(0, -180)` — the latitude survives but
the longitude comes back as `-180` instead of `0`, an absolute error of 180,
because `vector3ToLatLng` computes `lng = normalize(theta)` where inverting
`latLngToVector3` requires `lng = normalize(180 - theta)`. -/
theorem claim_C2_roundtrip_failing_input :
    vector3ToLatLng (latLngToVector3 0 0 1) 1 = (0, -180) ∧
    |(vector3ToLatLng (latLngToVector3 0 0 1) 1).2 - 0| > 1e-6 := by
  have hnormalize : Vec3.normalize ⟨-1, 0, 0⟩ = (⟨-1, 0, 0⟩ : Vec3 ℝ) := by
    unfold Vec3.normalize
    have hlen : (Vec3.mk (-1 : ℝ) 0 0).len = 1 := by
      unfold Vec3.len Vec3.normSq
      norm_num
    rw [hlen]
    norm_num [Vec3.smul]
  have hatan : mathAtan2 0 (-1) = Real.pi := by
    unfold mathAtan2
    norm_num [Real.arctan_zero]
  have hmain : vector3ToLatLng (latLngToVector3 0 0 1) 1 = (0, -180) := by
    rw [latLngToVector3_at_origin]
    simp only [vector3ToLatLng]
    rw [hnormalize]
    have hsmul : Vec3.smul (1 : ℝ) ⟨-1, 0, 0⟩ = (⟨-1, 0, 0⟩ : Vec3 ℝ) := by
      norm_num [Vec3.smul]
    rw [hsmul]
    simp only
    rw [show clamp ((0 : ℝ) / 1) (-1) 1 = 0 by norm_num [clamp],
      Real.arccos_zero, hatan,
      show (Real.pi / 2 * 180) / Real.pi = 90 by
        field_simp
        ring,
      show (Real.pi * 180) / Real.pi = 180 by field_simp,
      show jsMod ((180 : ℝ) + 180) 360 = 0 by
        unfold jsMod fieldTrunc
        norm_num]
    norm_num
  exact ⟨hmain, by rw [hmain]; norm_num⟩

/-! ## C1: CPU strategy vs GPU strategy -/

/-- Helper: the uniform Catmull-Rom basis at local parameter 0 returns the
segment's second control point. -/
theorem evaluateCatmullRom_zero {K : Type*} [LinearOrderedField K]
    (p0 p1 p2 p3 : Vec3 K) :
    evaluateCatmullRom p0 p1 p2 p3 0 = p1 := by
  obtain ⟨x, y, z⟩ := p1
  simp only [evaluateCatmullRom, catmullRomComp, Vec3.mk.injEq]
  refine ⟨by ring, by ring, by ring⟩

/-- Helper: unpacking control point 3 recovers the packed point. -/
theorem shaderControlPoint_pack_three {K : Type*} (pts : ℕ → Vec3 K)
    (d ph ty : K) :
    shaderControlPoint (packFlightPath pts d ph ty) 3 = pts 3 := rfl

/-- Helper: unpacking control point 4 recovers the packed point. -/
theorem shaderControlPoint_pack_four {K : Type*} (pts : ℕ → Vec3 K)
    (d ph ty : K) :
    shaderControlPoint (packFlightPath pts d ph ty) 4 = pts 4 := rfl

/-- Helper: unpacking control point 0 recovers the packed point. -/
theorem shaderControlPoint_pack_zero {K : Type*} (pts : ℕ → Vec3 K)
    (d ph ty : K) :
    shaderControlPoint (packFlightPath pts d ph ty) 0 = pts 0 := rfl

/-- Helper: the shader's spline evaluator at `t = 1` lands on control point 4
(the parameter is mapped to segment `floor(4) = 4`, which falls into the
shader's trailing `else` branch with local parameter 0). -/
theorem shaderFlightPathPos_pack_one {K : Type*} [LinearOrderedField K]
    [FloorRing K] (pts : ℕ → Vec3 K) (d ph ty : K) :
    shaderFlightPathPos (packFlightPath pts d ph ty) 1 = pts 4 := by
  simp only [shaderFlightPathPos]
  have hfl : ⌊(1 : K) * 4⌋ = (4 : ℤ) := by
    rw [show (1 : K) * 4 = ((4 : ℤ) : K) by push_cast; ring]
    exact Int.floor_intCast 4
  rw [hfl]
  rw [if_neg (by decide : ¬ ((4:ℤ) = 0)), if_neg (by decide : ¬ ((4:ℤ) = 1)),
    if_neg (by decide : ¬ ((4:ℤ) = 2))]
  rw [show (1 : K) * 4 - ((4 : ℤ) : K) = 0 by push_cast; ring]
  rw [evaluateCatmullRom_zero]
  exact shaderControlPoint_pack_four pts d ph ty

/-- Helper: the shader's spline evaluator at `t = 1/2` lands on control point 3
(segment 2, local parameter 0). -/
theorem shaderFlightPathPos_pack_half {K : Type*} [LinearOrderedField K]
    [FloorRing K] (pts : ℕ → Vec3 K) (d ph ty : K) :
    shaderFlightPathPos (packFlightPath pts d ph ty) (1 / 2) = pts 3 := by
  simp only [shaderFlightPathPos]
  have hfl : ⌊(1 / 2 : K) * 4⌋ = (2 : ℤ) := by
    rw [show (1 / 2 : K) * 4 = ((2 : ℤ) : K) by push_cast; ring]
    exact Int.floor_intCast 2
  rw [hfl]
  rw [if_neg (by decide : ¬ ((2:ℤ) = 0)), if_neg (by decide : ¬ ((2:ℤ) = 1)),
    if_pos (rfl : (2:ℤ) = 2)]
  rw [show (1 / 2 : K) * 4 - ((2 : ℤ) : K) = 0 by push_cast; ring]
  rw [evaluateCatmullRom_zero]
  exact shaderControlPoint_pack_three pts d ph ty

/-- Helper: the CPU strategy's rendered dwell position on the concrete path:
while waiting, `Flight.update` evaluates the curve at parameter 1 (control
point 4 of the shared evaluator) and lifts it 8 units along the sphere
normal. -/
theorem cpuRenderedPosition_cex : cpuRenderedPosition cexPack 1 = ⟨0, 4008, 0⟩ := by
  unfold cpuRenderedPosition cpuCurvePointAt
  rw [show cexPack = packFlightPath cexPts 2 0 0 from rfl, shaderFlightPathPos_pack_one,
    show cexPts 4 = (⟨0, 4000, 0⟩ : Vec3 ℝ) from rfl]
  have hlen : (Vec3.mk (0:ℝ) 4000 0).len = 4000 := by
    unfold Vec3.len Vec3.normSq
    rw [show ((0:ℝ) ^ 2 + 4000 ^ 2 + 0 ^ 2) = 4000 ^ 2 by norm_num]
    exact Real.sqrt_sq (by norm_num)
  unfold Vec3.normalize
  dsimp only
  rw [hlen]
  rw [if_neg (by norm_num : ¬ ((4000:ℝ) = 0))]
  simp only [Vec3.add, Vec3.smul, Vec3.mk.injEq]
  norm_num

/-- Helper: the GPU strategy's rendered position at elapsed time 3 on the
concrete path: the shader is on its return journey at `reverseT = 1/2`
(control point 3), above the minimum-altitude shell. -/
theorem gpuRenderedPosition_cex :
    gpuRenderedPosition cexPack 5 3 1 3000 = ⟨4000, 0, 0⟩ := by
  unfold gpuRenderedPosition
  have hcy : gpuCyclePosition cexPack 5 3 1 = ⟨4000, 0, 0⟩ := by
    simp only [gpuCyclePosition]
    rw [show cexPack.c6.y = (2:ℝ) from rfl, show cexPack.c6.z = (0:ℝ) from rfl]
    have hmod : glslMod ((3:ℝ) * 1 + 0) (2 * 2 + 5) = 3 := by
      unfold glslMod
      have hfl : ⌊((3:ℝ) * 1 + 0) / (2 * 2 + 5)⌋ = 0 := by
        apply Int.floor_eq_zero_iff.mpr
        constructor
        · norm_num
        · norm_num
      rw [hfl]
      norm_num
    rw [hmod]
    rw [if_neg (by norm_num : ¬ ((3:ℝ) < 2)), if_pos (by norm_num : (3:ℝ) < 2 * 2)]
    rw [show (1 - ((3:ℝ) - 2) / 2) = 1 / 2 by norm_num]
    rw [show cexPack = packFlightPath cexPts 2 0 0 from rfl, shaderFlightPathPos_pack_half]
    exact rfl
  rw [hcy]
  unfold gpuAltitudeLift
  have hlen : (Vec3.mk (4000:ℝ) 0 0).len = 4000 := by
    unfold Vec3.len Vec3.normSq
    rw [show ((4000:ℝ) ^ 2 + 0 ^ 2 + 0 ^ 2) = 4000 ^ 2 by norm_num]
    exact Real.sqrt_sq (by norm_num)
  simp only [hlen]
  rw [if_neg (by norm_num : ¬ ((4000:ℝ) - 3000 < 50))]

/-- C1 counterexample: same flight path (`cexPack`), same duration (2 s), same
elapsed time (3 s — the CPU side ticking `update(2)` then `update(1)`, the GPU
side with `time = 3`, `animationSpeed = 1`, zero phase offset, `waitTime = 5`):
the CPU strategy is dwelling at the end of the curve, rendering `(0, 4008, 0)`,
while the GPU strategy's vertex evaluator is on its baked-in return journey at
`(4000, 0, 0)` — a disagreement of more than 4000 length units, far beyond any
small epsilon. -/
theorem claim_C1_counterexample :
    (flightUpdate (fun _ _ : Unit => (2:ℝ)) 2 ⟨(), (), 0, 2, 5, false, 0⟩).2 = some 1 ∧
    (flightUpdate (fun _ _ : Unit => (2:ℝ)) 1
      (flightUpdate (fun _ _ : Unit => (2:ℝ)) 2 ⟨(), (), 0, 2, 5, false, 0⟩).1).2 =
      some 1 ∧
    cpuRenderedPosition cexPack 1 = ⟨0, 4008, 0⟩ ∧
    gpuRenderedPosition cexPack 5 3 1 3000 = ⟨4000, 0, 0⟩ ∧
    cpuRenderedPosition cexPack 1 ≠ gpuRenderedPosition cexPack 5 3 1 3000 := by
  have hstate : (flightUpdate (fun _ _ : Unit => (2:ℝ)) 2
      ⟨(), (), 0, 2, 5, false, 0⟩).1 =
      (⟨(), (), 1, 2, 5, true, 0⟩ : FlightSim Unit ℝ) := by
    simp only [flightUpdate]
    norm_num
  have hout1 : (flightUpdate (fun _ _ : Unit => (2:ℝ)) 2
      ⟨(), (), 0, 2, 5, false, 0⟩).2 = some 1 := by
    simp only [flightUpdate]
    norm_num
  have hout2 : (flightUpdate (fun _ _ : Unit => (2:ℝ)) 1
      (⟨(), (), 1, 2, 5, true, 0⟩ : FlightSim Unit ℝ)).2 = some 1 := by
    simp only [flightUpdate]
    norm_num
  refine ⟨hout1, by rw [hstate]; exact hout2, cpuRenderedPosition_cex,
    gpuRenderedPosition_cex, ?_⟩
  rw [cpuRenderedPosition_cex, gpuRenderedPosition_cex]
  intro h
  have hx := congrArg Vec3.x h
  norm_num at hx

/-- C1 amended: parity holds only for the outbound flying phase, at the spline
level: for a flying CPU state that stays below progress 1 and a GPU instance
with zero phase offset and the same duration, the CPU evaluator's curve
position at the new progress equals the GPU vertex evaluator's forward-branch
position at the same elapsed time. (In the dwell phase they diverge — see the
counterexample — and the final lifts also differ: the CPU adds a fixed 8-unit
normal offset while the GPU clamps to a 50-unit minimum altitude.) -/
theorem claim_C1_flying_phase_parity (pp : PackedPath ℝ)
    (durationOf : Unit → Unit → ℝ) (f : FlightSim Unit ℝ) (dt : ℝ)
    (hw : f.isWaiting = false) (hd : 0 < f.duration) (hp : 0 ≤ f.progress)
    (hdt : 0 ≤ dt) (hwt : 0 ≤ f.waitTime)
    (hlt : f.progress + dt / f.duration < 1)
    (hdur : pp.c6.y = f.duration) (hph : pp.c6.z = 0) :
    (flightUpdate durationOf dt f).2 = some (f.progress + dt / f.duration) ∧
    cpuCurvePointAt pp (f.progress + dt / f.duration) =
      gpuCyclePosition pp f.waitTime
        ((f.progress + dt / f.duration) * f.duration) 1 := by
  have hp0 : 0 ≤ f.progress + dt / f.duration :=
    add_nonneg hp (div_nonneg hdt hd.le)
  constructor
  · unfold flightUpdate
    rw [hw]
    simp only [Bool.false_eq_true, if_false]
    rw [if_neg (not_le.mpr hlt)]
  · simp only [gpuCyclePosition]
    rw [hdur, hph]
    have harg : (f.progress + dt / f.duration) * f.duration * 1 + 0 =
        (f.progress + dt / f.duration) * f.duration := by ring
    rw [harg]
    have hcyc : (0:ℝ) < f.duration * 2 + f.waitTime := by linarith
    have hlt2 : (f.progress + dt / f.duration) * f.duration < f.duration := by
      have := mul_lt_mul_of_pos_right hlt hd
      linarith [this]
    have hnn : (0:ℝ) ≤ (f.progress + dt / f.duration) * f.duration :=
      mul_nonneg hp0 hd.le
    have hmod : glslMod ((f.progress + dt / f.duration) * f.duration)
        (f.duration * 2 + f.waitTime) =
        (f.progress + dt / f.duration) * f.duration := by
      unfold glslMod
      have hfl : ⌊(f.progress + dt / f.duration) * f.duration /
          (f.duration * 2 + f.waitTime)⌋ = 0 := by
        apply Int.floor_eq_zero_iff.mpr
        constructor
        · exact div_nonneg hnn hcyc.le
        · rw [div_lt_one hcyc]
          linarith
      rw [hfl]
      push_cast
      ring
    rw [hmod]
    rw [if_pos hlt2]
    unfold cpuCurvePointAt
    congr 1
    field_simp

/-- Witness for the C1 amended theorem: the concrete path `cexPack` with
duration 2, a flying state at progress 0 and a tick of 1 second. -/
theorem claim_C1_flying_phase_parity_witness :
    (flightUpdate (fun _ _ : Unit => (2:ℝ)) 1 ⟨(), (), 0, 2, 5, false, 0⟩).2 =
      some ((0:ℝ) + 1 / 2) ∧
    cpuCurvePointAt cexPack ((0:ℝ) + 1 / 2) =
      gpuCyclePosition cexPack 5 (((0:ℝ) + 1 / 2) * 2) 1 :=
  claim_C1_flying_phase_parity cexPack (fun _ _ => 2)
    ⟨(), (), 0, 2, 5, false, 0⟩ 1 rfl (by norm_num) (by norm_num) (by norm_num)
    (by norm_num) (by norm_num) rfl rfl
